import Mathlib

/-!
Verification development for the GLB compressor application
(`src/glb_compressor.py`).

The first half of this file is a shallow embedding of the Python source:
the application state (`AppState`), the Qt slider (`Slider`), the
drag-and-drop handler (`dropEvent`), file loading (`load_glb_file`),
and the compression run (`perform_compression`, `compress_file`).
The external `trimesh` library is abstracted as a record of functions
(`TrimeshLib`); the file system is a partial map from paths to bytes.
Exceptions are modelled as explicit error values, and the `try/except/
finally` block of `perform_compression` is embedded by first computing
the try-body together with an optional raised exception
(`compressionBody`), then applying the handler and the finally clause.

The second half models, from the specification only, the GLB container
reader/writer engine that the specification describes (the Python code
delegates that work to `trimesh` in a single opaque call), and proves
the round-trip property for it.
-/

/-- A byte string, as a list of byte values. -/
abbrev Bytes := List Nat

/-- Model of the external `trimesh` library as used by
`perform_compression`: `load` turns file bytes into a scene and may
raise (the error message is the exception text); `exportScene` turns a
scene into the bytes written to the output file and may also raise.
The scene type is kept abstract as an uninterpreted byte payload.
Note the library receives no compression-level argument anywhere:
`trimesh.load(path, force="scene")` and `scene.export(path)` are the
only calls the source makes. -/
structure TrimeshLib where
  load : Bytes → Except String Bytes
  exportScene : Bytes → Except String Bytes

/-- A file system: paths to file contents. -/
abbrev FileSys := String → Option Bytes

/-- `trimesh.load(self.filepath, force="scene")`: reading the file at
the path (a missing file raises), then parsing it with the library. -/
def loadFile (fs : FileSys) (lib : TrimeshLib) (path : String) :
    Except String Bytes :=
  match fs path with
  | none => Except.error ("No such file or directory: " ++ path)
  | some b => lib.load b

/-- Observable events of a compression run, in the order they happen:
progress-bar updates with their log message (`update_progress`),
log messages (`set_status_message`), and writes of an output file
(`scene.export(output_path)`). -/
inductive Event where
  | progress (value : Nat) (message : String)
  | status (message : String)
  | fileWrite (path : String) (bytes : Bytes)
  deriving DecidableEq

/-- The Qt slider: `minimum`, `maximum` and current `value`. -/
structure Slider where
  minimum : Int
  maximum : Int
  value : Int
  deriving DecidableEq

/-- `QSlider.setValue`: the value is clamped into the slider range. -/
def Slider.setValue (s : Slider) (v : Int) : Slider :=
  { s with value := max s.minimum (min s.maximum v) }

/-- `QSlider.setRange(lo, hi)`: if `hi < lo` the maximum becomes `lo`;
the current value is re-clamped into the new range. -/
def Slider.setRange (s : Slider) (lo hi : Int) : Slider :=
  let hi2 := max lo hi
  { minimum := lo, maximum := hi2, value := max lo (min hi2 s.value) }

/-- A default-constructed horizontal `QSlider`: range 0–99, value 0. -/
def Slider.fresh : Slider :=
  { minimum := 0, maximum := 99, value := 0 }

/-- The mutable state of `GLBCompressorApp` that the handlers touch.
`filepath = none` models the attribute never having been assigned
(the constructor does not initialize `self.filepath`), so reading it
raises `AttributeError`; `some p` models `self.filepath = p`. -/
structure AppState where
  filepath : Option String
  slider : Slider
  fileLabel : String
  sliderLabel : String
  logArea : List String
  progressBarValue : Nat
  compressButtonEnabled : Bool
  deriving DecidableEq

/-- `os.path.basename`, on the character list: the suffix after the
last path separator. -/
def basenameChars : List Char → List Char → List Char
  | [], acc => acc.reverse
  | c :: rest, acc =>
      if c = '/' then basenameChars rest []
      else basenameChars rest (c :: acc)

/-- `os.path.basename(filepath)`. -/
def basename (p : String) : String :=
  String.mk (basenameChars p.data [])

/-- Python `s.endswith(suffix)` on character lists: `ys` ends in `xs`. -/
def listEndsWith (ys xs : List Char) : Bool :=
  if xs.length ≤ ys.length then
    decide (ys.drop (ys.length - xs.length) = xs)
  else false

/-- Python `s.endswith(suffix)`. -/
def strEndsWith (s suffix : String) : Bool :=
  listEndsWith s.data suffix.data

/-- `GLBCompressorApp.__init__`: no `self.filepath`; the slider gets
`setRange(10, 100)` then `setValue(50)`; labels, empty log, progress
bar at 0, compress button enabled. -/
def initState : AppState :=
  { filepath := none
    slider := (Slider.fresh.setRange 10 100).setValue 50
    fileLabel := "No file loaded."
    sliderLabel := "Compression Level: 50%"
    logArea := []
    progressBarValue := 0
    compressButtonEnabled := true }

/-- `set_status_message`: appends the message to the log area. -/
def set_status_message (st : AppState) (message : String) : AppState :=
  { st with logArea := st.logArea ++ [message] }

/-- `update_progress`: sets the progress bar and appends the message to
the log area. -/
def update_progress (st : AppState) (value : Nat) (message : String) :
    AppState :=
  { st with progressBarValue := value, logArea := st.logArea ++ [message] }

/-- `load_glb_file`: stores the path in `self.filepath` and reports the
loaded file in the label and the log. -/
def load_glb_file (st : AppState) (filepath : String) : AppState :=
  let st1 := { st with
    filepath := some filepath
    fileLabel := "Loaded file: " ++ basename filepath }
  set_status_message st1 ("Loaded file: " ++ basename filepath)

/-- `update_slider_label`: rewrites the label from the slider value. -/
def update_slider_label (st : AppState) : AppState :=
  { st with sliderLabel :=
      "Compression Level: " ++ toString st.slider.value ++ "%" }

/-- A dropped URL; `localFile` is `QUrl.toLocalFile()`. -/
structure Url where
  localFile : String
  deriving DecidableEq

/-- `DragAndDropArea.dropEvent`, as wired in `__init__`: the callback is
`load_glb_file` and the parent widget is the application window. Returns
the new application state together with the argument the callback was
invoked with, if it was invoked. An empty URL list does nothing; with a
non-empty list only the first URL is examined. -/
def dropEvent (st : AppState) (urls : List Url) :
    AppState × Option String :=
  match urls with
  | [] => (st, none)
  | u :: _ =>
      if strEndsWith u.localFile ".glb" then
        (load_glb_file st u.localFile, some u.localFile)
      else
        (set_status_message st
          "Invalid file type. Only .glb files are supported.", none)

/-- The `try` block of `perform_compression`, executed until it finishes
or an exception is raised: returns the state reached, the events emitted
so far, and the text of the raised exception if any. Reading
`self.filepath` when the attribute was never assigned raises
`AttributeError` (after the first `update_progress`, which the source
performs first). Exceptions from `trimesh.load` and `scene.export`
carry the library error text. -/
def compressionBody (lib : TrimeshLib) (fs : FileSys) (st : AppState)
    (output_path : String) : AppState × List Event × Option String :=
  let st1 := update_progress st 10 "Loading GLB file..."
  let e1 : List Event := [Event.progress 10 "Loading GLB file..."]
  match st.filepath with
  | none =>
      (st1, e1, some "GLBCompressorApp object has no attribute filepath")
  | some path =>
    match loadFile fs lib path with
    | Except.error e => (st1, e1, some e)
    | Except.ok scene =>
      let st2 := update_progress st1 90 "Saving compressed file..."
      let e2 := e1 ++ [Event.progress 90 "Saving compressed file..."]
      match lib.exportScene scene with
      | Except.error e => (st2, e2, some e)
      | Except.ok outBytes =>
        let e3 := e2 ++ [Event.fileWrite output_path outBytes]
        let st3 := update_progress st2 100 "Compression complete."
        let e4 := e3 ++ [Event.progress 100 "Compression complete."]
        let doneMsg := "Compressed file saved: " ++ output_path
        let st4 := set_status_message st3 doneMsg
        (st4, e4 ++ [Event.status doneMsg], none)

/-- `perform_compression(output_path)`: runs the try block; the
`except Exception` clause turns any raised exception into the status
message `"Compression failed: " ++ e`; the `finally` clause re-enables
the compress button on every path. The function always returns normally
(the except clause catches every exception the body can raise). -/
def perform_compression (lib : TrimeshLib) (fs : FileSys) (st : AppState)
    (output_path : String) : AppState × List Event :=
  let r := compressionBody lib fs st output_path
  match r.2.2 with
  | some e =>
      let msg := "Compression failed: " ++ e
      let st2 := set_status_message r.1 msg
      ({ st2 with compressButtonEnabled := true },
        r.2.1 ++ [Event.status msg])
  | none => ({ r.1 with compressButtonEnabled := true }, r.2.1)

/-- Outcome of `compress_file`, one constructor per source branch:
reading the never-assigned `self.filepath` raises `AttributeError`
which propagates to the Qt caller; a falsy stored path takes the
"No GLB file loaded to compress." branch; a cancelled save dialog
returns silently; otherwise the compression thread body runs. -/
inductive CompressCall where
  | attrError
  | noFile (st : AppState)
  | cancelled (st : AppState)
  | ran (st : AppState) (evs : List Event)
  deriving DecidableEq

/-- `compress_file`, with the save-dialog outcome supplied as an
argument (`none` models a cancelled or empty dialog result). Python
string truthiness makes `not self.filepath` true exactly for the empty
string once the attribute exists. The thread started on the happy path
runs `perform_compression`; its effects are folded into the result. -/
def compress_file (lib : TrimeshLib) (fs : FileSys) (st : AppState)
    (saveDialog : Option String) : CompressCall :=
  match st.filepath with
  | none => CompressCall.attrError
  | some p =>
      if p.data.isEmpty then
        CompressCall.noFile
          (set_status_message st "No GLB file loaded to compress.")
      else
        match saveDialog with
        | none => CompressCall.cancelled st
        | some out =>
            let r := perform_compression lib fs st out
            CompressCall.ran r.1 r.2

/-- `open_file_dialog`, with the dialog result supplied as an argument:
an empty path (cancelled dialog) is ignored, otherwise the file is
loaded. -/
def open_file_dialog (st : AppState) (dialogResult : String) : AppState :=
  if dialogResult.data.isEmpty then st else load_glb_file st dialogResult

/-- The first file-write event of a run, if any: the bytes written to
the output file. -/
def extractWrite : List Event → Option Bytes
  | [] => none
  | Event.fileWrite _ b :: _ => some b
  | _ :: rest => extractWrite rest

/-- The progress-bar values reported by a run, in order. -/
def progressValues : List Event → List Nat
  | [] => []
  | Event.progress v _ :: rest => v :: progressValues rest
  | _ :: rest => progressValues rest

/-- A list of naturals in non-decreasing order. -/
def isNondecreasing : List Nat → Bool
  | [] => true
  | [_] => true
  | a :: b :: rest => decide (a ≤ b) && isNondecreasing (b :: rest)

/-- The application state of a run: a fresh window after
`load_glb_file fp` with the compression slider set to `level`. -/
def stateWithLevel (fp : String) (level : Int) : AppState :=
  let st := load_glb_file initState fp
  { st with slider := st.slider.setValue level }

/-- The bytes a compression run writes to the output file, for a window
whose loaded file is `fp` and whose slider holds `level`; `none` when
the run fails before the export. -/
def runOutput (lib : TrimeshLib) (fs : FileSys) (fp : String)
    (level : Int) (output_path : String) : Option Bytes :=
  extractWrite (perform_compression lib fs (stateWithLevel fp level)
    output_path).2

/-- The bytes "glTF", the GLB header magic. -/
def goodMagic : Bytes := [103, 108, 84, 70]

/-- A concrete model of `trimesh`: loading checks the four magic bytes
and raises on a corrupted header; export serializes the scene back. -/
def cLib : TrimeshLib :=
  { load := fun b =>
      if b.take 4 = goodMagic then Except.ok b
      else Except.error "MalformedContainer: bad magic"
    exportScene := fun b => Except.ok b }

/-- A concrete file system holding one valid GLB file. -/
def cFs : FileSys := fun p =>
  if p = "model.glb" then some (goodMagic ++ [1, 2, 3]) else none

/-- A concrete file system holding two valid GLB files of different
sizes, and one corrupted file whose header magic is wrong. -/
def cFs2 : FileSys := fun p =>
  if p = "a.glb" then some (goodMagic ++ [1])
  else if p = "b.glb" then some goodMagic
  else if p = "bad.glb" then some [0, 0, 0, 0]
  else none

/-- A user-interface action on the window: a direct call of the
`load_glb_file` callback (as the drop handler and the open dialog
perform), a drop event, the open-file dialog closing with a result,
moving the compression slider, and clicking the compress button with a
given save-dialog outcome. -/
inductive UIAction where
  | loadAct (p : String)
  | dropAct (urls : List Url)
  | openDialog (result : String)
  | setSliderValue (v : Int)
  | compressAct (saveDialog : Option String)
  deriving DecidableEq

/-- The window state after a click of the compress button returned the
given outcome; an `AttributeError` propagates out of the Qt slot and
leaves the state unchanged. -/
def afterCompressClick (st : AppState) : CompressCall → AppState
  | CompressCall.attrError => st
  | CompressCall.noFile st2 => st2
  | CompressCall.cancelled st2 => st2
  | CompressCall.ran st2 _ => st2

/-- One user-interface action applied to the window state. -/
def applyAction (lib : TrimeshLib) (fs : FileSys) (st : AppState) :
    UIAction → AppState
  | UIAction.loadAct p => load_glb_file st p
  | UIAction.dropAct urls => (dropEvent st urls).1
  | UIAction.openDialog r => open_file_dialog st r
  | UIAction.setSliderValue v =>
      update_slider_label { st with slider := st.slider.setValue v }
  | UIAction.compressAct d =>
      afterCompressClick st (compress_file lib fs st d)

/-- The window state after a sequence of user-interface actions,
starting from the freshly constructed window. -/
def runActions (lib : TrimeshLib) (fs : FileSys)
    (acts : List UIAction) : AppState :=
  acts.foldl (applyAction lib fs) initState

/-- Modelled from the spec: the glTF document graph the specification's
engine operates on, restricted to the fields the round-trip property
speaks about — the node graph (children indices per node), the
per-primitive indices topology, and the per-attribute payload values
that quantization is allowed to alter. -/
structure SpecDocument where
  nodes : List (List Nat)
  indices : List (List Nat)
  attributes : List (List Nat)
  deriving DecidableEq

/-- Modelled from the spec: the `CompressionPlan` produced once per run
from the level parameter (§3): quantization bit widths, image quality
and format, and the dedup/weld switches. -/
structure CompressionPlan where
  positionBits : Nat
  normalBits : Nat
  uvBits : Nat
  colorBits : Nat
  imageQuality : Nat
  imageFormat : Nat
  dedupeBuffers : Bool
  weldVertices : Bool
  deriving DecidableEq

/-- Modelled from the spec: quantization (§4.3) re-expresses an
attribute value as a fixed-point integer at the plan's bit precision;
this is the documented lossy transform of the pipeline. -/
def quantizeValue (bits : Nat) (v : Nat) : Nat := v % 2 ^ bits

/-- Modelled from the spec: the Mesh Compressor's effect on the
document — attribute payloads pass through quantization at the plan's
position precision, while the node graph and the indices topology are
left untouched. -/
def quantizeDoc (plan : CompressionPlan) (doc : SpecDocument) :
    SpecDocument :=
  { doc with attributes :=
      doc.attributes.map (fun a => a.map (quantizeValue plan.positionBits)) }

/-- A length-prefixed encoding of one list of values. -/
def encodeList (xs : List Nat) : List Nat := xs.length :: xs

/-- A count-prefixed encoding of a list of lists. -/
def encodeListList (xss : List (List Nat)) : List Nat :=
  xss.length :: (xss.map encodeList).flatten

/-- Decodes one length-prefixed list, returning it and the remaining
bytes; fails on a truncated input. -/
def decodeList : List Nat → Option (List Nat × List Nat)
  | [] => none
  | n :: rest =>
      if n ≤ rest.length then some (rest.take n, rest.drop n) else none

/-- Decodes `n` consecutive length-prefixed lists. -/
def decodeMany : Nat → List Nat → Option (List (List Nat) × List Nat)
  | 0, rest => some ([], rest)
  | n + 1, bytes =>
      match decodeList bytes with
      | none => none
      | some (xs, rest) =>
          match decodeMany n rest with
          | none => none
          | some (xss, rest2) => some (xs :: xss, rest2)

/-- Decodes a count-prefixed list of lists. -/
def decodeListList : List Nat → Option (List (List Nat) × List Nat)
  | [] => none
  | n :: rest => decodeMany n rest

/-- The GLB header magic, "glTF", as one word. -/
def glbMagicWord : Nat := 0x46546C67

/-- The GLB container version. -/
def glbVersionWord : Nat := 2

/-- Modelled from the spec: the Container Writer (§4.6) — the engine
the Python code delegates to `trimesh` in one opaque call. It applies
the plan's quantization and serializes the document behind a header
carrying the magic, the version, and the total length. -/
def writeDoc (plan : CompressionPlan) (doc : SpecDocument) : List Nat :=
  let q := quantizeDoc plan doc
  let payload := encodeListList q.nodes ++ encodeListList q.indices ++
    encodeListList q.attributes
  glbMagicWord :: glbVersionWord :: (payload.length + 3) :: payload

/-- Modelled from the spec: the Container Reader (§4.1) — validates the
header magic, version and total length before touching chunks, then
parses the three document sections; any structural failure aborts with
`MalformedContainer`. -/
def readDoc (bytes : List Nat) : Except String SpecDocument :=
  match bytes with
  | m :: v :: len :: payload =>
      if m ≠ glbMagicWord then Except.error "MalformedContainer: bad magic"
      else if v ≠ glbVersionWord then
        Except.error "MalformedContainer: bad version"
      else if len ≠ payload.length + 3 then
        Except.error "MalformedContainer: bad length"
      else
        match decodeListList payload with
        | none => Except.error "MalformedContainer: truncated nodes"
        | some (ns, r1) =>
            match decodeListList r1 with
            | none => Except.error "MalformedContainer: truncated indices"
            | some (is, r2) =>
                match decodeListList r2 with
                | none =>
                    Except.error "MalformedContainer: truncated attributes"
                | some (as2, r3) =>
                    if r3.isEmpty then
                      Except.ok { nodes := ns, indices := is,
                                  attributes := as2 }
                    else Except.error "MalformedContainer: trailing bytes"
  | _ => Except.error "MalformedContainer: short header"

/-! ## Shared lemmas -/

theorem stateWithLevel_filepath (fp : String) (level : Int) :
    (stateWithLevel fp level).filepath = some fp := rfl

theorem compressionBody_filepath (lib : TrimeshLib) (fs : FileSys)
    (st : AppState) (out : String) :
    (compressionBody lib fs st out).1.filepath = st.filepath := by
  unfold compressionBody
  cases h : st.filepath with
  | none => simp [h, update_progress]
  | some p =>
      cases hl : loadFile fs lib p with
      | error e => simp [h, hl, update_progress]
      | ok scene =>
          cases he : lib.exportScene scene <;>
            simp [h, hl, he, update_progress, set_status_message]

theorem perform_compression_filepath (lib : TrimeshLib) (fs : FileSys)
    (st : AppState) (out : String) :
    (perform_compression lib fs st out).1.filepath = st.filepath := by
  simp only [perform_compression]
  cases h : (compressionBody lib fs st out).2.2 <;>
    simp [h, set_status_message, compressionBody_filepath]

theorem compressionBody_trace_congr (lib : TrimeshLib) (out : String)
    {fs1 fs2 : FileSys} {st st' : AppState} {fp1 fp2 : String}
    (h1 : st.filepath = some fp1) (h2 : st'.filepath = some fp2)
    (h : loadFile fs1 lib fp1 = loadFile fs2 lib fp2) :
    (compressionBody lib fs1 st out).2 =
      (compressionBody lib fs2 st' out).2 := by
  unfold compressionBody
  cases hl : loadFile fs2 lib fp2 with
  | error e => simp [h1, h2, h, hl]
  | ok scene =>
      cases he : lib.exportScene scene <;> simp [h1, h2, h, hl, he]

theorem perform_compression_trace_congr (lib : TrimeshLib) (out : String)
    {fs1 fs2 : FileSys} {st st' : AppState} {fp1 fp2 : String}
    (h1 : st.filepath = some fp1) (h2 : st'.filepath = some fp2)
    (h : loadFile fs1 lib fp1 = loadFile fs2 lib fp2) :
    (perform_compression lib fs1 st out).2 =
      (perform_compression lib fs2 st' out).2 := by
  have hb := compressionBody_trace_congr lib out h1 h2 h
  have hevs : (compressionBody lib fs1 st out).2.1 =
      (compressionBody lib fs2 st' out).2.1 := by rw [hb]
  have herr : (compressionBody lib fs1 st out).2.2 =
      (compressionBody lib fs2 st' out).2.2 := by rw [hb]
  simp only [perform_compression]
  rw [herr, hevs]
  cases hc : (compressionBody lib fs2 st' out).2.2 <;> simp [hc]

theorem runOutput_congr (lib : TrimeshLib) {fs1 fs2 : FileSys}
    {fp1 fp2 : String} (l1 l2 : Int) (out : String)
    (h : loadFile fs1 lib fp1 = loadFile fs2 lib fp2) :
    runOutput lib fs1 fp1 l1 out = runOutput lib fs2 fp2 l2 out := by
  unfold runOutput
  rw [perform_compression_trace_congr lib out (stateWithLevel_filepath fp1 l1)
    (stateWithLevel_filepath fp2 l2) h]

theorem decodeList_encodeList (xs rest : List Nat) :
    decodeList (encodeList xs ++ rest) = some (xs, rest) := by
  simp [encodeList, decodeList, List.take_left, List.drop_left]

theorem decodeMany_encode (xss : List (List Nat)) (rest : List Nat) :
    decodeMany xss.length ((xss.map encodeList).flatten ++ rest) =
      some (xss, rest) := by
  induction xss generalizing rest with
  | nil => simp [decodeMany]
  | cons x xs ih =>
      simp [decodeMany, List.append_assoc, decodeList_encodeList, ih]

theorem decodeListList_encode (xss : List (List Nat)) (rest : List Nat) :
    decodeListList (encodeListList xss ++ rest) = some (xss, rest) := by
  simp [encodeListList, decodeListList, decodeMany_encode]

theorem readDoc_writeDoc (plan : CompressionPlan) (doc : SpecDocument) :
    readDoc (writeDoc plan doc) = Except.ok (quantizeDoc plan doc) := by
  have hA := decodeListList_encode (quantizeDoc plan doc).attributes []
  rw [List.append_nil] at hA
  simp [writeDoc, readDoc, List.append_assoc, decodeListList_encode, hA]

theorem afterCompressClick_filepath (lib : TrimeshLib) (fs : FileSys)
    (st : AppState) (d : Option String) :
    (afterCompressClick st (compress_file lib fs st d)).filepath =
      st.filepath := by
  unfold compress_file
  cases h : st.filepath with
  | none => simp [h, afterCompressClick]
  | some p =>
      by_cases hp : p.data.isEmpty
      · simp [h, hp, afterCompressClick, set_status_message]
      · cases d with
        | none => simp [h, hp, afterCompressClick]
        | some out =>
            simp [h, hp, afterCompressClick, perform_compression_filepath]

theorem applyAction_filepath_empty (lib : TrimeshLib) (fs : FileSys)
    (st : AppState) (a : UIAction)
    (h : (applyAction lib fs st a).filepath = some "") :
    st.filepath = some "" ∨ a = UIAction.loadAct "" := by
  cases a with
  | loadAct p =>
      right
      have hp : p = "" := by
        simpa [applyAction, load_glb_file, set_status_message] using h
      rw [hp]
  | dropAct urls =>
      left
      cases urls with
      | nil => simpa [applyAction, dropEvent] using h
      | cons u rest =>
          by_cases hg : strEndsWith u.localFile ".glb" = true
          · exfalso
            have hu : u.localFile = "" := by
              simpa [applyAction, dropEvent, hg, load_glb_file,
                set_status_message] using h
            rw [hu] at hg
            exact absurd hg (by decide)
          · simpa [applyAction, dropEvent, hg, set_status_message] using h
  | openDialog r =>
      left
      by_cases hr : r.data.isEmpty
      · simpa [applyAction, open_file_dialog, hr] using h
      · exfalso
        have hrr : r = "" := by
          simpa [applyAction, open_file_dialog, hr, load_glb_file,
            set_status_message] using h
        rw [hrr] at hr
        simp at hr
  | setSliderValue v =>
      left
      simpa [applyAction, update_slider_label] using h
  | compressAct d =>
      left
      rw [← afterCompressClick_filepath lib fs st d]
      simpa [applyAction] using h

theorem foldl_filepath_empty (lib : TrimeshLib) (fs : FileSys) :
    ∀ (acts : List UIAction) (st : AppState),
      (acts.foldl (applyAction lib fs) st).filepath = some "" →
      st.filepath = some "" ∨ UIAction.loadAct "" ∈ acts := by
  intro acts
  induction acts with
  | nil => intro st h; exact Or.inl h
  | cons a rest ih =>
      intro st h
      rcases ih (applyAction lib fs st a) h with h1 | h2
      · rcases applyAction_filepath_empty lib fs st a h1 with h3 | h3
        · exact Or.inl h3
        · exact Or.inr (by rw [h3]; exact List.mem_cons_self _ _)
      · exact Or.inr (List.mem_cons_of_mem _ h2)


theorem compressionBody_slider (lib : TrimeshLib) (fs : FileSys)
    (st : AppState) (out : String) :
    (compressionBody lib fs st out).1.slider = st.slider := by
  unfold compressionBody
  cases h : st.filepath with
  | none => simp [h, update_progress]
  | some p =>
      cases hl : loadFile fs lib p with
      | error e => simp [h, hl, update_progress]
      | ok scene =>
          cases he : lib.exportScene scene <;>
            simp [h, hl, he, update_progress, set_status_message]

theorem perform_compression_slider (lib : TrimeshLib) (fs : FileSys)
    (st : AppState) (out : String) :
    (perform_compression lib fs st out).1.slider = st.slider := by
  simp only [perform_compression]
  cases h : (compressionBody lib fs st out).2.2 <;>
    simp [h, set_status_message, compressionBody_slider]

theorem afterCompressClick_slider (lib : TrimeshLib) (fs : FileSys)
    (st : AppState) (d : Option String) :
    (afterCompressClick st (compress_file lib fs st d)).slider =
      st.slider := by
  unfold compress_file
  cases h : st.filepath with
  | none => simp [h, afterCompressClick]
  | some p =>
      by_cases hp : p.data.isEmpty
      · simp [h, hp, afterCompressClick, set_status_message]
      · cases d with
        | none => simp [h, hp, afterCompressClick]
        | some out =>
            simp [h, hp, afterCompressClick, perform_compression_slider]

theorem applyAction_slider_inv (lib : TrimeshLib) (fs : FileSys)
    (st : AppState) (a : UIAction)
    (h1 : st.slider.minimum = 10) (h2 : st.slider.maximum = 100)
    (h3 : 10 ≤ st.slider.value) (h4 : st.slider.value ≤ 100) :
    (applyAction lib fs st a).slider.minimum = 10 ∧
    (applyAction lib fs st a).slider.maximum = 100 ∧
    10 ≤ (applyAction lib fs st a).slider.value ∧
    (applyAction lib fs st a).slider.value ≤ 100 := by
  cases a with
  | loadAct p =>
      simpa [applyAction, load_glb_file, set_status_message] using
        ⟨h1, h2, h3, h4⟩
  | dropAct urls =>
      cases urls with
      | nil => simpa [applyAction, dropEvent] using ⟨h1, h2, h3, h4⟩
      | cons u rest =>
          by_cases hg : strEndsWith u.localFile ".glb" = true
          · simpa [applyAction, dropEvent, hg, load_glb_file,
              set_status_message] using ⟨h1, h2, h3, h4⟩
          · simp only [Bool.not_eq_true] at hg
            simpa [applyAction, dropEvent, hg, set_status_message] using
              ⟨h1, h2, h3, h4⟩
  | openDialog r =>
      by_cases hr : r.data.isEmpty
      · simpa [applyAction, open_file_dialog, hr] using ⟨h1, h2, h3, h4⟩
      · simpa [applyAction, open_file_dialog, hr, load_glb_file,
          set_status_message] using ⟨h1, h2, h3, h4⟩
  | setSliderValue v =>
      refine ⟨?_, ?_, ?_, ?_⟩ <;>
        simp [applyAction, update_slider_label, Slider.setValue, h1, h2] <;>
        omega
  | compressAct d =>
      rw [show (applyAction lib fs st (UIAction.compressAct d)).slider =
        st.slider from afterCompressClick_slider lib fs st d]
      exact ⟨h1, h2, h3, h4⟩

theorem foldl_slider_inv (lib : TrimeshLib) (fs : FileSys) :
    ∀ (acts : List UIAction) (st : AppState),
      st.slider.minimum = 10 → st.slider.maximum = 100 →
      10 ≤ st.slider.value → st.slider.value ≤ 100 →
      10 ≤ (acts.foldl (applyAction lib fs) st).slider.value ∧
      (acts.foldl (applyAction lib fs) st).slider.value ≤ 100 := by
  intro acts
  induction acts with
  | nil =>
      intro st h1 h2 h3 h4
      exact ⟨h3, h4⟩
  | cons a rest ih =>
      intro st h1 h2 h3 h4
      obtain ⟨g1, g2, g3, g4⟩ := applyAction_slider_inv lib fs st a h1 h2 h3 h4
      exact ih (applyAction lib fs st a) g1 g2 g3 g4

/-! ## Claims -/

/-- C9: on a drop event carrying a non-empty URL list only the first URL
is examined (the remaining URLs never change the outcome); the load
callback is invoked, with that URL's local file path, exactly when the
path ends in ".glb"; otherwise the callback is not invoked, the stored
filepath is unchanged, and the message "Invalid file type. Only .glb
files are supported." is reported instead. -/
theorem dropEvent_first_url_only (st : AppState) (u : Url)
    (rest : List Url) :
    dropEvent st (u :: rest) = dropEvent st [u] ∧
    (strEndsWith u.localFile ".glb" = true →
      dropEvent st (u :: rest) =
        (load_glb_file st u.localFile, some u.localFile)) ∧
    (strEndsWith u.localFile ".glb" = false →
      dropEvent st (u :: rest) =
        (set_status_message st
          "Invalid file type. Only .glb files are supported.", none) ∧
      (dropEvent st (u :: rest)).1.filepath = st.filepath) := by
  by_cases hg : strEndsWith u.localFile ".glb" = true
  · simp [dropEvent, hg]
  · simp only [Bool.not_eq_true] at hg
    simp [dropEvent, hg, set_status_message]

theorem dropEvent_first_url_only_witness :
    strEndsWith "notes.txt" ".glb" = false ∧
    dropEvent initState [Url.mk "notes.txt", Url.mk "scene.glb"] =
      (set_status_message initState
        "Invalid file type. Only .glb files are supported.", none) :=
  ⟨by decide,
    ((dropEvent_first_url_only initState (Url.mk "notes.txt")
      [Url.mk "scene.glb"]).2.2 (by decide)).1⟩

/-- C6: the compression-level slider is constrained to the integer range
[10, 100] at all times: the freshly constructed window has it at 50
with minimum 10 and maximum 100; `setValue` clamps every requested
value into that range rather than rejecting it, so no out-of-range
value can ever be selected; and in every window state reachable by any
sequence of user-interface actions the slider value stays in
[10, 100]. -/
theorem slider_level_always_in_range :
    initState.slider.value = 50 ∧ initState.slider.minimum = 10 ∧
    initState.slider.maximum = 100 ∧
    (∀ s : Slider, s.minimum = 10 → s.maximum = 100 → ∀ v : Int,
      (s.setValue v).minimum = 10 ∧ (s.setValue v).maximum = 100 ∧
      10 ≤ (s.setValue v).value ∧ (s.setValue v).value ≤ 100 ∧
      (v < 10 → (s.setValue v).value = 10) ∧
      (100 < v → (s.setValue v).value = 100) ∧
      (10 ≤ v → v ≤ 100 → (s.setValue v).value = v)) ∧
    ∀ (lib : TrimeshLib) (fs : FileSys) (acts : List UIAction),
      10 ≤ (runActions lib fs acts).slider.value ∧
      (runActions lib fs acts).slider.value ≤ 100 := by
  refine ⟨by decide, by decide, by decide, ?_, ?_⟩
  · intro s hmin hmax v
    obtain ⟨mn, mx, val⟩ := s
    simp only [Slider.setValue] at hmin hmax ⊢
    subst hmin
    subst hmax
    refine ⟨rfl, rfl, ?_, ?_, ?_, ?_, ?_⟩ <;> intros <;> omega
  · intro lib fs acts
    exact foldl_slider_inv lib fs acts initState (by decide) (by decide)
      (by decide) (by decide)

theorem slider_level_always_in_range_witness :
    (10 : Int) ≤ ((Slider.mk 10 100 50).setValue 200).value ∧
    ((Slider.mk 10 100 50).setValue 200).value ≤ 100 ∧
    ((Slider.mk 10 100 50).setValue 200).value = 100 :=
  ⟨(slider_level_always_in_range.2.2.2.1 (Slider.mk 10 100 50) rfl rfl
      200).2.2.1,
   (slider_level_always_in_range.2.2.2.1 (Slider.mk 10 100 50) rfl rfl
      200).2.2.2.1,
   (slider_level_always_in_range.2.2.2.1 (Slider.mk 10 100 50) rfl rfl
      200).2.2.2.2.2.1 (by decide)⟩

/-- C10: `perform_compression` never propagates an exception: it always
returns normally (it is a total function of the model), on every path
the compress button is re-enabled before it returns, and whenever the
try-block raised an exception `e` the status message
`"Compression failed: " ++ e` is in the log of the returned state. -/
theorem perform_compression_catches_all (lib : TrimeshLib) (fs : FileSys)
    (st : AppState) (out : String) :
    (perform_compression lib fs st out).1.compressButtonEnabled = true ∧
    ∀ e, (compressionBody lib fs st out).2.2 = some e →
      ("Compression failed: " ++ e) ∈
        (perform_compression lib fs st out).1.logArea := by
  constructor
  · simp only [perform_compression]
    cases h : (compressionBody lib fs st out).2.2 <;> simp [h]
  · intro e he
    simp only [perform_compression]
    simp [he, set_status_message]

theorem perform_compression_catches_all_witness :
    (compressionBody cLib cFs2 (stateWithLevel "bad.glb" 50) "out.glb").2.2 =
      some "MalformedContainer: bad magic" ∧
    ("Compression failed: " ++ "MalformedContainer: bad magic") ∈
      (perform_compression cLib cFs2 (stateWithLevel "bad.glb" 50)
        "out.glb").1.logArea :=
  ⟨by decide,
    (perform_compression_catches_all cLib cFs2 (stateWithLevel "bad.glb" 50)
      "out.glb").2 "MalformedContainer: bad magic" (by decide)⟩

/-- C3: when loading the stored file raises (as it does for a corrupted
container, e.g. a wrong header magic), the run emits only the initial
progress event and the failure report: the export step is never reached,
no file-write event occurs (so no partial output file is written), and
the status log of the final state reports the failure. -/
theorem load_failure_writes_nothing (lib : TrimeshLib) (fs : FileSys)
    (st : AppState) (fp out e : String)
    (hfp : st.filepath = some fp)
    (hload : loadFile fs lib fp = Except.error e) :
    (perform_compression lib fs st out).2 =
      [Event.progress 10 "Loading GLB file...",
       Event.status ("Compression failed: " ++ e)] ∧
    (∀ p b, Event.fileWrite p b ∉ (perform_compression lib fs st out).2) ∧
    ("Compression failed: " ++ e) ∈
      (perform_compression lib fs st out).1.logArea := by
  have htrace : (perform_compression lib fs st out).2 =
      [Event.progress 10 "Loading GLB file...",
       Event.status ("Compression failed: " ++ e)] := by
    simp only [perform_compression]
    simp [compressionBody, hfp, hload]
  refine ⟨htrace, ?_, ?_⟩
  · intro p b
    rw [htrace]
    simp
  · simp only [perform_compression]
    simp [compressionBody, hfp, hload, set_status_message, update_progress]

theorem load_failure_writes_nothing_witness :
    (stateWithLevel "bad.glb" 50).filepath = some "bad.glb" ∧
    loadFile cFs2 cLib "bad.glb" =
      Except.error "MalformedContainer: bad magic" ∧
    (perform_compression cLib cFs2 (stateWithLevel "bad.glb" 50)
        "out.glb").2 =
      [Event.progress 10 "Loading GLB file...",
       Event.status ("Compression failed: " ++
         "MalformedContainer: bad magic")] :=
  ⟨by decide, by rfl,
    (load_failure_writes_nothing cLib cFs2 (stateWithLevel "bad.glb" 50)
      "bad.glb" "out.glb" "MalformedContainer: bad magic" (by decide)
      (by rfl)).1⟩

/-- C7: on a successful run the progress events happen at the defined
checkpoints and in pipeline order — the loading report (value 10), then
the pre-export report (value 90), then the write of the output file,
then the completion report (value 100) — and the reported progress
values never decrease across the run. -/
theorem progress_events_ordered (lib : TrimeshLib) (fs : FileSys)
    (st : AppState) (fp out : String) (scene b : Bytes)
    (hfp : st.filepath = some fp)
    (hload : loadFile fs lib fp = Except.ok scene)
    (hexp : lib.exportScene scene = Except.ok b) :
    (perform_compression lib fs st out).2 =
      [Event.progress 10 "Loading GLB file...",
       Event.progress 90 "Saving compressed file...",
       Event.fileWrite out b,
       Event.progress 100 "Compression complete.",
       Event.status ("Compressed file saved: " ++ out)] ∧
    isNondecreasing
      (progressValues (perform_compression lib fs st out).2) = true := by
  have htrace : (perform_compression lib fs st out).2 =
      [Event.progress 10 "Loading GLB file...",
       Event.progress 90 "Saving compressed file...",
       Event.fileWrite out b,
       Event.progress 100 "Compression complete.",
       Event.status ("Compressed file saved: " ++ out)] := by
    simp only [perform_compression]
    simp [compressionBody, hfp, hload, hexp]
  refine ⟨htrace, ?_⟩
  rw [htrace]
  rfl

theorem progress_events_ordered_witness :
    (stateWithLevel "model.glb" 50).filepath = some "model.glb" ∧
    loadFile cFs cLib "model.glb" = Except.ok (goodMagic ++ [1, 2, 3]) ∧
    isNondecreasing (progressValues
      (perform_compression cLib cFs (stateWithLevel "model.glb" 50)
        "out.glb").2) = true :=
  ⟨by decide, by rfl,
    (progress_events_ordered cLib cFs (stateWithLevel "model.glb" 50)
      "model.glb" "out.glb" (goodMagic ++ [1, 2, 3]) (goodMagic ++ [1, 2, 3])
      (by decide) (by rfl) (by rfl)).2⟩

/-- C1 (counterexample): compressing a fixed valid GLB input at
level 100 does not produce a strictly smaller output than at level 10 —
on a concrete valid input both runs write exactly the same bytes, so
the strict size decrease the claim asserts is false. -/
theorem level100_not_strictly_smaller :
    runOutput cLib cFs "model.glb" 100 "out.glb" =
      some (goodMagic ++ [1, 2, 3]) ∧
    runOutput cLib cFs "model.glb" 10 "out.glb" =
      some (goodMagic ++ [1, 2, 3]) ∧
    ¬ (goodMagic ++ [1, 2, 3]).length < (goodMagic ++ [1, 2, 3]).length := by
  refine ⟨by decide, by decide, by decide⟩

/-- C1 (amended): for every fixed input the outputs produced at
level 100 and at level 10 — indeed at any two levels — are identical,
because `perform_compression` never reads the slider: the level has no
effect on the output at all, so its byte size is equal, not strictly
smaller. -/
theorem output_independent_of_level (lib : TrimeshLib) (fs : FileSys)
    (fp out : String) (l1 l2 : Int) :
    runOutput lib fs fp l1 out = runOutput lib fs fp l2 out :=
  runOutput_congr lib l1 l2 out rfl

/-- C2: for a fixed input and any two levels `l1 ≤ l2` in [10, 100],
when both runs produce an output, the byte size at `l2` is less than or
equal to the byte size at `l1` (the size is non-increasing in the
level; in this program it is in fact constant, since the level is never
read by the run). -/
theorem output_size_nonincreasing (lib : TrimeshLib) (fs : FileSys)
    (fp out : String) (l1 l2 : Int) (b1 b2 : Bytes)
    (h10 : 10 ≤ l1) (h12 : l1 ≤ l2) (h100 : l2 ≤ 100)
    (h1 : runOutput lib fs fp l1 out = some b1)
    (h2 : runOutput lib fs fp l2 out = some b2) :
    b2.length ≤ b1.length := by
  have h : runOutput lib fs fp l1 out = runOutput lib fs fp l2 out :=
    runOutput_congr lib l1 l2 out rfl
  rw [h1, h2] at h
  have hb : b1 = b2 := Option.some_injective _ h
  rw [hb]

theorem output_size_nonincreasing_witness :
    (10 : Int) ≤ 10 ∧ (10 : Int) ≤ 100 ∧ (100 : Int) ≤ 100 ∧
    runOutput cLib cFs "model.glb" 10 "out.glb" =
      some (goodMagic ++ [1, 2, 3]) ∧
    (goodMagic ++ [1, 2, 3]).length ≤ (goodMagic ++ [1, 2, 3]).length :=
  ⟨by decide, by decide, by decide, by decide,
    output_size_nonincreasing cLib cFs "model.glb" "out.glb" 10 100
      (goodMagic ++ [1, 2, 3]) (goodMagic ++ [1, 2, 3])
      (by decide) (by decide) (by decide) (by decide) (by decide)⟩

/-- C4 (counterexample): the output of a run is not a function of the
explicit inputs of the invocation alone — the stored filepath, mutable
state written by `load_glb_file` and read by the run at run time, does
influence the result: two runs with the same explicit arguments (the
same output path, the same library, the same file system, the same
slider level) but different stored filepaths write different bytes. -/
theorem stored_filepath_influences_output :
    runOutput cLib cFs2 "a.glb" 50 "out.glb" = some (goodMagic ++ [1]) ∧
    runOutput cLib cFs2 "b.glb" 50 "out.glb" = some goodMagic ∧
    runOutput cLib cFs2 "a.glb" 50 "out.glb" ≠
      runOutput cLib cFs2 "b.glb" 50 "out.glb" := by
  refine ⟨by decide, by decide, by decide⟩

/-- C4 (amended): the output of a run is a deterministic function of
the bytes the stored filepath resolves to (together with the library
behaviour): any two runs whose stored files hold the same bytes produce
identical output, whatever their slider levels; in particular repeated
runs over an unchanged file and level are reproducible. The slider
value has no influence; the stored filepath, however, is shared mutable
state that the run reads, so the result is not a function of the
invocation's explicit inputs alone. -/
theorem runOutput_none_of_no_file (lib : TrimeshLib) (fs : FileSys)
    (fp : String) (l : Int) (out : String) (h : fs fp = none) :
    runOutput lib fs fp l out = none := by
  have hl : loadFile fs lib fp =
      Except.error ("No such file or directory: " ++ fp) := by
    unfold loadFile
    rw [h]
  unfold runOutput
  simp only [perform_compression]
  simp [compressionBody, stateWithLevel_filepath, hl, extractWrite]

theorem output_determined_by_loaded_bytes (lib : TrimeshLib)
    (fs1 fs2 : FileSys) (fp1 fp2 out : String) (l1 l2 : Int)
    (h : fs1 fp1 = fs2 fp2) :
    runOutput lib fs1 fp1 l1 out = runOutput lib fs2 fp2 l2 out := by
  cases hb : fs2 fp2 with
  | none =>
      rw [runOutput_none_of_no_file lib fs1 fp1 l1 out (h.trans hb),
        runOutput_none_of_no_file lib fs2 fp2 l2 out hb]
  | some b =>
      apply runOutput_congr lib l1 l2 out
      unfold loadFile
      rw [h, hb]

theorem output_determined_by_loaded_bytes_witness :
    cFs "model.glb" = cFs "model.glb" ∧
    runOutput cLib cFs "model.glb" 10 "out.glb" =
      runOutput cLib cFs "model.glb" 87 "out.glb" :=
  ⟨rfl, output_determined_by_loaded_bytes cLib cFs cFs "model.glb"
    "model.glb" "out.glb" 10 87 rfl⟩

/-- C8: clicking compress before any file has ever been loaded raises
`AttributeError` — `self.filepath` is never initialized by the
constructor, so the guard itself fails — and the
"No GLB file loaded to compress." branch is reachable only after
`load_glb_file` has run at least once with a falsy (empty) path: every
action sequence from the fresh window whose compress click lands in
that branch contains a `load_glb_file` call with the empty string. -/
theorem compress_click_before_any_load (lib : TrimeshLib) (fs : FileSys) :
    (∀ d, compress_file lib fs initState d = CompressCall.attrError) ∧
    (∀ (acts : List UIAction) (d : Option String) (st2 : AppState),
      compress_file lib fs (runActions lib fs acts) d =
        CompressCall.noFile st2 →
      UIAction.loadAct "" ∈ acts) := by
  constructor
  · intro d
    rfl
  · intro acts d st2 hc
    have hfp : (runActions lib fs acts).filepath = some "" := by
      unfold compress_file at hc
      cases h : (runActions lib fs acts).filepath with
      | none =>
          rw [h] at hc
          exact absurd hc (by simp)
      | some p =>
          rw [h] at hc
          by_cases hp : p.data.isEmpty
          · have hpe : p = "" := by
              cases p with
              | mk l =>
                  have hl : l = [] := by simpa using hp
                  rw [hl]
            rw [hpe]
          · exfalso
            cases d with
            | none => simp [hp] at hc
            | some o => simp [hp] at hc
    rcases foldl_filepath_empty lib fs acts initState hfp with h1 | h2
    · exact absurd h1 (by simp [initState])
    · exact h2

theorem compress_click_before_any_load_witness :
    compress_file cLib cFs initState none = CompressCall.attrError ∧
    UIAction.loadAct "" ∈ [UIAction.loadAct ""] :=
  ⟨(compress_click_before_any_load cLib cFs).1 none,
   (compress_click_before_any_load cLib cFs).2 [UIAction.loadAct ""] none
     (set_status_message (runActions cLib cFs [UIAction.loadAct ""])
       "No GLB file loaded to compress.") (by rfl)⟩

/-- C5: reading back a written document reproduces it up to the
documented lossy transform (quantization of attribute payloads), and
the structural fields — the node graph and the indices topology — are
preserved exactly. Stated over the engine modelled from the spec, since
the Python code delegates reading and writing to the external library
in one opaque call. -/
theorem read_write_round_trip (plan : CompressionPlan)
    (doc : SpecDocument) :
    readDoc (writeDoc plan doc) = Except.ok (quantizeDoc plan doc) ∧
    (quantizeDoc plan doc).nodes = doc.nodes ∧
    (quantizeDoc plan doc).indices = doc.indices :=
  ⟨readDoc_writeDoc plan doc, rfl, rfl⟩
